import Mathlib

/-!
Shallow embedding of `src/blogGenerator.js` (AeroLead-AI-BlogGenerator), a
minimal Express service with one generation function (`generateBlog`), one
POST route (`/generate`) and one GET route (`/blog`), backed by a document
store of blog records.

Modelling choices:
* The document store (the MongoDB `Blog` collection) is a `List BlogRecord`
  threaded explicitly through every operation, in insertion order.
* The external Hugging Face chat-completion call is an oracle: each call is
  given an `ApiResponse` (either the call throws, or it returns a response
  whose first message's text is an `Option String` — `none` models an absent
  `choices[0].message.content`).  `Date.now` at record creation time is the
  oracle's `now` field.  A whole request gets an environment
  `env : Nat → CallEnv` giving the outcome of the i-th external call.
* JavaScript timestamps are `Nat`.
* The success branch of `generateBlog` returns the saved mongoose document
  (which carries `createdAt`); the catch branch returns a plain object with
  only `title`, `details`, `content`.  Both are modelled by `GenResult`,
  whose `createdAt : Option Nat` is `none` exactly when the field is absent
  from the returned object.
* Request bodies: `express.json` yields a parsed value; the route only reads
  `req.body.blogs`, modelled as `Option JVal` (`none` = field absent).
  Array elements are consumed only as `{ b.title, b.details }` pairs, so the
  array constructor carries `List BlogInput` directly.
-/

/-- A stored blog document (mongoose `Blog` schema: `title`, `details`,
`content`, `createdAt` with default `Date.now`). -/
structure BlogRecord where
  title : String
  details : String
  content : String
  createdAt : Nat
deriving DecidableEq, Repr

/-- The value returned by one `generateBlog` call.  On success it is the
saved document (so `createdAt = some _`); on failure it is the plain object
`{ title, details, content }`, with no `createdAt` field (`none`). -/
structure GenResult where
  title : String
  details : String
  content : String
  createdAt : Option Nat
deriving DecidableEq, Repr

/-- Outcome of one external `client.chatCompletion` invocation: either the
call throws, or it returns and `response?.choices?.[0]?.message?.content`
is the given `Option String` (`none` = absent). -/
inductive ApiResponse where
  | failure
  | success (content : Option String)
deriving DecidableEq, Repr

/-- Environment of a single `generateBlog` call: the external-call outcome
and the value of `Date.now` used for the record's `createdAt` default. -/
structure CallEnv where
  api : ApiResponse
  now : Nat
deriving DecidableEq, Repr

/-- One `{ title, details }` pair from the request's `blogs` array. -/
structure BlogInput where
  title : String
  details : String
deriving DecidableEq, Repr

/-- A parsed JSON value as far as the `/generate` route inspects it: the
route only tests truthiness and `Array.isArray` on `req.body.blogs`, and
reads `b.title` / `b.details` off array elements. -/
inductive JVal where
  | jnull
  | jbool (b : Bool)
  | jnum (n : Int)
  | jstr (s : String)
  | jarr (items : List BlogInput)
deriving DecidableEq, Repr

/-- JavaScript truthiness of a `JVal` (arrays are always truthy). -/
def JVal.truthy : JVal → Bool
  | .jnull => false
  | .jbool b => b
  | .jnum n => n != 0
  | .jstr s => s != ""
  | .jarr _ => true

/-- `Array.isArray`. -/
def JVal.isArray : JVal → Bool
  | .jarr _ => true
  | _ => false

/-- `content === "Failed to generate blog."` placeholder of the catch branch. -/
def failedContent : String := "Failed to generate blog."

/-- Sentinel used when the first message's text is absent or trims empty. -/
def noContentSentinel : String := "No content generated."

/-- 400 message of the `/generate` route. -/
def errBlogsMsg : String :=
  "Please provide blogs as an array of \x7b title, details \x7d"

/-- `response?.choices?.[0]?.message?.content?.trim() || "No content generated."`:
the trimmed first-message text, or the sentinel when it is absent
(optional chaining yields `undefined`) or trims to the empty string
(`""` is falsy, so `||` falls through). -/
def extractContent : Option String → String
  | none => noContentSentinel
  | some s => if s.trim = "" then noContentSentinel else s.trim

/-- `generateBlog(title, details)` from `src/blogGenerator.js:51-94`, with the
call environment explicit.  The try branch extracts the content, saves a new
`Blog` document (append to the store; `createdAt` defaults to `Date.now`) and
returns that document.  The catch branch returns
`{ title, details, content: "Failed to generate blog." }` and performs no
store write. -/
def generateBlog (env : CallEnv) (title details : String)
    (store : List BlogRecord) : GenResult × List BlogRecord :=
  match env.api with
  | .failure =>
      ({ title := title, details := details, content := failedContent,
         createdAt := none }, store)
  | .success c? =>
      let content := extractContent c?
      let blog : BlogRecord :=
        { title := title, details := details, content := content,
          createdAt := env.now }
      ({ title := title, details := details, content := content,
         createdAt := some env.now }, store ++ [blog])

/-- HTTP outcome of the `/generate` route. -/
inductive HttpResponse where
  | badRequest (msg : String)
  | okJson (results : List GenResult)
  | serverError (msg : String)
deriving DecidableEq, Repr

/-- Result of running the sequential per-item loop of the `/generate` route:
accumulated results, final store, and number of `generateBlog` invocations
(each of which performs exactly one external API call). -/
structure LoopOut where
  results : List GenResult
  store : List BlogRecord
  calls : Nat
deriving DecidableEq, Repr

/-- `for (const b of blogs) { results.push(await generateBlog(b.title, b.details)) }`:
strictly sequential, the i-th iteration using the environment of the i-th
external call. -/
def genLoop (env : Nat → CallEnv) : Nat → List BlogInput → List BlogRecord → LoopOut
  | _, [], store => ⟨[], store, 0⟩
  | i, b :: bs, store =>
      let step := generateBlog (env i) b.title b.details store
      let rest := genLoop env (i + 1) bs step.2
      ⟨step.1 :: rest.results, rest.store, rest.calls + 1⟩

/-- The guard `!blogs || !Array.isArray(blogs)` of the `/generate` route
(`none` models the `blogs` field being absent, i.e. `undefined`). -/
def blogsRejected : Option JVal → Bool
  | none => true
  | some v => !v.truthy || !v.isArray

/-- Outcome of one `/generate` request. -/
structure PostOutcome where
  resp : HttpResponse
  store : List BlogRecord
  calls : Nat
deriving DecidableEq, Repr

/-- The `POST /generate` handler (`src/blogGenerator.js:99-118`): rejects with
400 and no work when `!blogs || !Array.isArray(blogs)`, otherwise runs the
sequential loop and answers the result list as JSON.  (The wildcard arm of
the inner match is unreachable: a non-rejected value is an array.) -/
def postGenerate (env : Nat → CallEnv) (blogs? : Option JVal)
    (store : List BlogRecord) : PostOutcome :=
  if blogsRejected blogs? then
    { resp := .badRequest errBlogsMsg, store := store, calls := 0 }
  else
    match blogs? with
    | some (.jarr bs) =>
        let out := genLoop env 0 bs store
        { resp := .okJson out.results, store := out.store, calls := out.calls }
    | _ => { resp := .badRequest errBlogsMsg, store := store, calls := 0 }

/-- Ordering used by `GET /blog`: `sort({ createdAt: -1 })`, i.e. `a` comes
before `b` when `a.createdAt ≥ b.createdAt`. -/
def createdDesc (a b : BlogRecord) : Prop := b.createdAt ≤ a.createdAt

instance : DecidableRel createdDesc := fun a b => Nat.decLe b.createdAt a.createdAt

instance : IsTotal BlogRecord createdDesc :=
  ⟨fun a b => (Nat.le_total a.createdAt b.createdAt).symm⟩

instance : IsTrans BlogRecord createdDesc :=
  ⟨fun _ _ _ hab hbc => Nat.le_trans hbc hab⟩

/-- The `GET /blog` handler (`src/blogGenerator.js:120-123`): returns all
stored records sorted by `createdAt` descending, and leaves the store as it
was (the pair is `(response body, store after the request)`). -/
def getBlog (store : List BlogRecord) : List BlogRecord × List BlogRecord :=
  (store.insertionSort createdDesc, store)

/-! ### Helper lemmas -/

/-- The value returned by `generateBlog` does not depend on the store passed
in (the store is only extended, never read). -/
theorem generateBlog_fst_store (e : CallEnv) (t d : String)
    (store : List BlogRecord) :
    (generateBlog e t d store).1 = (generateBlog e t d []).1 := by
  cases e with
  | mk api now => cases api <;> rfl

/-- The new store after `generateBlog` is the old store with at most one
record appended. -/
theorem generateBlog_snd_cases (e : CallEnv) (t d : String)
    (store : List BlogRecord) :
    (generateBlog e t d store).2 = store ∨
      ∃ r, (generateBlog e t d store).2 = store ++ [r] := by
  cases e with
  | mk api now =>
      cases api with
      | failure => exact Or.inl rfl
      | success c => exact Or.inr ⟨_, rfl⟩

/-- The loop produces one result per input item. -/
theorem genLoop_results_length (env : Nat → CallEnv) (bs : List BlogInput) :
    ∀ i store, (genLoop env i bs store).results.length = bs.length := by
  induction bs with
  | nil => intro i store; rfl
  | cons b bs ih => intro i store; simp [genLoop, ih]

/-- The j-th result of the loop started at call index `i` is the value
`generateBlog` returns for the j-th input under the environment of call
`i + j` (independently of the store state at that point). -/
theorem genLoop_results_get (env : Nat → CallEnv) (bs : List BlogInput) :
    ∀ i store j,
      (genLoop env i bs store).results.get? j =
        (bs.get? j).map
          (fun b => (generateBlog (env (i + j)) b.title b.details []).1) := by
  induction bs with
  | nil => intro i store j; simp [genLoop]
  | cons b bs ih =>
      intro i store j
      cases j with
      | zero => simp [genLoop, generateBlog_fst_store]
      | succ j =>
          have h := ih (i + 1) (generateBlog (env i) b.title b.details store).2 j
          simp only [genLoop, List.get?_cons_succ, h]
          have : i + 1 + j = i + (j + 1) := by omega
          rw [this]

/-- The loop only appends to the store. -/
theorem genLoop_store_extends (env : Nat → CallEnv) (bs : List BlogInput) :
    ∀ i store, ∃ tl, (genLoop env i bs store).store = store ++ tl := by
  induction bs with
  | nil => intro i store; exact ⟨[], by simp [genLoop]⟩
  | cons b bs ih =>
      intro i store
      rcases ih (i + 1) (generateBlog (env i) b.title b.details store).2 with ⟨tl, htl⟩
      rcases generateBlog_snd_cases (env i) b.title b.details store with h | ⟨r, h⟩
      · refine ⟨tl, ?_⟩
        simp only [genLoop]
        rw [htl, h]
      · refine ⟨[r] ++ tl, ?_⟩
        simp only [genLoop]
        rw [htl, h, List.append_assoc]

/-- The loop performs exactly one `generateBlog` call (hence one external
API call) per input item. -/
theorem genLoop_calls (env : Nat → CallEnv) (bs : List BlogInput) :
    ∀ i store, (genLoop env i bs store).calls = bs.length := by
  induction bs with
  | nil => intro i store; rfl
  | cons b bs ih => intro i store; simp [genLoop, ih]

/-- The content extracted from a successful response is never the empty
string (the sentinel is nonempty, and the trim branch is taken only when the
trimmed text is nonempty). -/
theorem extractContent_ne_empty (c? : Option String) : extractContent c? ≠ "" := by
  cases c? with
  | none => simp [extractContent, noContentSentinel]
  | some s =>
      by_cases h : s.trim = "" <;> simp [extractContent, h, noContentSentinel]

/-- An array-valued `blogs` field is never rejected (a JS array is truthy,
even when empty, and `Array.isArray` holds). -/
theorem blogsRejected_jarr (bs : List BlogInput) :
    blogsRejected (some (JVal.jarr bs)) = false := rfl

/-- On an array body, `/generate` runs the loop from call index 0. -/
theorem postGenerate_jarr (env : Nat → CallEnv) (bs : List BlogInput)
    (store : List BlogRecord) :
    postGenerate env (some (JVal.jarr bs)) store =
      { resp := HttpResponse.okJson (genLoop env 0 bs store).results,
        store := (genLoop env 0 bs store).store,
        calls := (genLoop env 0 bs store).calls } := rfl

/-- Characterisation of the catch branch: when the inference call throws,
`generateBlog` returns the plain placeholder object and leaves the store
untouched. -/
theorem generateBlog_failure (e : CallEnv) (t d : String)
    (store : List BlogRecord) (h : e.api = ApiResponse.failure) :
    generateBlog e t d store =
      ({ title := t, details := d, content := failedContent, createdAt := none },
        store) := by
  cases e with
  | mk api now =>
      cases api with
      | failure => rfl
      | success c => exact ApiResponse.noConfusion h

/-- Characterisation of the try branch: on a successful call, `generateBlog`
appends one document built from the extracted content and returns it. -/
theorem generateBlog_success (e : CallEnv) (t d : String)
    (store : List BlogRecord) (c? : Option String)
    (h : e.api = ApiResponse.success c?) :
    generateBlog e t d store =
      (⟨t, d, extractContent c?, some e.now⟩,
        store ++ [⟨t, d, extractContent c?, e.now⟩]) := by
  cases e with
  | mk api now =>
      cases api with
      | failure => exact ApiResponse.noConfusion h
      | success c =>
          have hc : c = c? := by injection h
          subst hc
          rfl

/-- A non-array `blogs` value is rejected by the route's guard. -/
theorem blogsRejected_not_array (v : JVal) (h : v.isArray = false) :
    blogsRejected (some v) = true := by
  simp [blogsRejected, h]

/-! ### Claim theorems -/

/-- C1 (counterexample): at a concrete failing call (the inference call
throws), `generateBlog` does return the placeholder content, but nothing is
persisted: starting from an empty store, the store after the call is still
empty, so no placeholder record is in the document store — refuting the
claim that the placeholder record is persisted. -/
theorem failed_generation_cex :
    (generateBlog ⟨ApiResponse.failure, 5⟩ "t" "d" []).1.content = failedContent ∧
    (generateBlog ⟨ApiResponse.failure, 5⟩ "t" "d" []).2 = [] ∧
    ¬ ∃ r, r ∈ (generateBlog ⟨ApiResponse.failure, 5⟩ "t" "d" []).2 ∧
        r.content = failedContent := by
  refine ⟨rfl, rfl, ?_⟩
  rintro ⟨r, hr, -⟩
  rw [show (generateBlog ⟨ApiResponse.failure, 5⟩ "t" "d" []).2 = [] from rfl] at hr
  exact (List.not_mem_nil r) hr

/-- C1 (amended): for every generation call whose external API invocation
fails, `generateBlog` still returns a record whose `content` equals
`"Failed to generate blog."`, but it does not persist that placeholder: the
document store is left unchanged. -/
theorem failed_generation_placeholder (e : CallEnv) (t d : String)
    (store : List BlogRecord) (h : e.api = ApiResponse.failure) :
    (generateBlog e t d store).1.content = failedContent ∧
    (generateBlog e t d store).2 = store := by
  rw [generateBlog_failure e t d store h]
  exact ⟨rfl, rfl⟩

/-- Witness for the amended C1 at a concrete failing call. -/
theorem failed_generation_placeholder_witness :
    (generateBlog ⟨ApiResponse.failure, 0⟩ "a" "b" []).1.content = failedContent ∧
    (generateBlog ⟨ApiResponse.failure, 0⟩ "a" "b" []).2 = [] :=
  failed_generation_placeholder ⟨ApiResponse.failure, 0⟩ "a" "b" [] rfl

/-- C2: a valid `POST /generate` body carrying N title/details pairs yields a
JSON array of exactly N results, the i-th entry being the `generateBlog`
outcome for the i-th submitted pair under the i-th external call — i.e. the
same order as submitted. -/
theorem post_generate_per_item (env : Nat → CallEnv) (bs : List BlogInput)
    (store : List BlogRecord) :
    ∃ rs, (postGenerate env (some (JVal.jarr bs)) store).resp =
        HttpResponse.okJson rs ∧
      rs.length = bs.length ∧
      ∀ i, rs.get? i =
        (bs.get? i).map (fun b => (generateBlog (env i) b.title b.details []).1) := by
  refine ⟨(genLoop env 0 bs store).results, rfl,
    genLoop_results_length env bs 0 store, ?_⟩
  intro i
  have h := genLoop_results_get env bs 0 store i
  simpa using h

/-- C3: for every state of the store, `GET /blog` returns all stored records
(a permutation of the store) sorted by `createdAt` in descending order,
whatever order they were inserted in. -/
theorem get_blog_sorted_desc (store : List BlogRecord) :
    List.Perm (getBlog store).1 store ∧
      List.Sorted createdDesc (getBlog store).1 :=
  ⟨List.perm_insertionSort createdDesc store,
    List.sorted_insertionSort createdDesc store⟩

/-- C4: `POST /generate` answers 400 with the error message — and performs
no external call and no store write — exactly when the `blogs` field is
missing or not an array; in particular the body with no `blogs` field and
the body with `blogs = "not-an-array"` are both rejected with 400. -/
theorem post_generate_bad_request_iff (env : Nat → CallEnv)
    (blogs? : Option JVal) (store : List BlogRecord) :
    (((postGenerate env blogs? store).resp = HttpResponse.badRequest errBlogsMsg ∧
        (postGenerate env blogs? store).store = store ∧
        (postGenerate env blogs? store).calls = 0) ↔
      (blogs? = none ∨ ∃ v, blogs? = some v ∧ v.isArray = false)) ∧
    (postGenerate env none store).resp = HttpResponse.badRequest errBlogsMsg ∧
    (postGenerate env (some (JVal.jstr "not-an-array")) store).resp =
      HttpResponse.badRequest errBlogsMsg := by
  refine ⟨⟨?_, ?_⟩, rfl, by simp [postGenerate, blogsRejected_not_array]⟩
  · rintro ⟨hresp, -, -⟩
    match blogs? with
    | none => exact Or.inl rfl
    | some (JVal.jarr bs) =>
        rw [postGenerate_jarr] at hresp
        exact absurd hresp (by simp)
    | some JVal.jnull => exact Or.inr ⟨_, rfl, rfl⟩
    | some (JVal.jbool b) => exact Or.inr ⟨_, rfl, rfl⟩
    | some (JVal.jnum n) => exact Or.inr ⟨_, rfl, rfl⟩
    | some (JVal.jstr s) => exact Or.inr ⟨_, rfl, rfl⟩
  · rintro (rfl | ⟨v, rfl, hv⟩)
    · exact ⟨rfl, rfl, rfl⟩
    · have hrej := blogsRejected_not_array v hv
      simp [postGenerate, hrej]

/-- C5: for every generation call whose external API call succeeds, exactly
one record is persisted; its `content` is a non-empty string and its `title`
and `details` equal the input title and details. -/
theorem success_persists_matching_record (e : CallEnv) (t d : String)
    (store : List BlogRecord) (c? : Option String)
    (h : e.api = ApiResponse.success c?) :
    ∃ r, (generateBlog e t d store).2 = store ++ [r] ∧
      r.title = t ∧ r.details = d ∧ r.content ≠ "" := by
  rw [generateBlog_success e t d store c? h]
  exact ⟨_, rfl, rfl, rfl, extractContent_ne_empty c?⟩

/-- Witness for C5 at a concrete successful call. -/
theorem success_persists_matching_record_witness :
    ∃ r, (generateBlog ⟨ApiResponse.success (some " hi "), 3⟩ "t" "d" []).2 =
        [] ++ [r] ∧ r.title = "t" ∧ r.details = "d" ∧ r.content ≠ "" :=
  success_persists_matching_record ⟨ApiResponse.success (some " hi "), 3⟩
    "t" "d" [] (some " hi ") rfl

/-- C6: in a batch submitted to `POST /generate`, a generation failure on
item `i` is caught locally and does not abort the batch: the response still
has one entry per submitted item (so every subsequent item was processed),
and position `i` holds the placeholder entry. -/
theorem batch_failure_isolated (env : Nat → CallEnv) (bs : List BlogInput)
    (store : List BlogRecord) (i : Nat) (hi : i < bs.length)
    (hf : (env i).api = ApiResponse.failure) :
    ∃ rs, (postGenerate env (some (JVal.jarr bs)) store).resp =
        HttpResponse.okJson rs ∧
      rs.length = bs.length ∧
      rs.get? i = some ⟨(bs.get ⟨i, hi⟩).title, (bs.get ⟨i, hi⟩).details,
        failedContent, none⟩ := by
  refine ⟨(genLoop env 0 bs store).results, rfl,
    genLoop_results_length env bs 0 store, ?_⟩
  have h := genLoop_results_get env bs 0 store i
  rw [Nat.zero_add] at h
  rw [h, List.get?_eq_get hi, Option.map_some']
  rw [generateBlog_failure (env i) (bs.get ⟨i, hi⟩).title
    (bs.get ⟨i, hi⟩).details [] hf]

/-- Witness for C6: a two-item batch whose first call fails. -/
theorem batch_failure_isolated_witness :
    ∃ rs, (postGenerate (fun _ => ⟨ApiResponse.failure, 0⟩)
        (some (JVal.jarr [⟨"t1", "d1"⟩, ⟨"t2", "d2"⟩])) []).resp =
        HttpResponse.okJson rs ∧
      rs.length = 2 ∧
      rs.get? 0 = some ⟨"t1", "d1", failedContent, none⟩ :=
  batch_failure_isolated (fun _ => ⟨ApiResponse.failure, 0⟩)
    [⟨"t1", "d1"⟩, ⟨"t2", "d2"⟩] [] 0 (by decide) rfl

/-- C7: on every successful external call, the content stored and returned
is the trimmed text of the first returned message; when that text is absent
or trims to the empty string, the sentinel `"No content generated."` is
used instead (the stored and returned contents coincide). -/
theorem success_content_trim_or_sentinel (e : CallEnv) (t d : String)
    (store : List BlogRecord) (c? : Option String)
    (h : e.api = ApiResponse.success c?) :
    ∃ r, (generateBlog e t d store).2 = store ++ [r] ∧
      (generateBlog e t d store).1.content = r.content ∧
      ((∃ s, c? = some s ∧ s.trim ≠ "" ∧ r.content = s.trim) ∨
        ((c? = none ∨ ∃ s, c? = some s ∧ s.trim = "") ∧
          r.content = noContentSentinel)) := by
  rw [generateBlog_success e t d store c? h]
  refine ⟨_, rfl, rfl, ?_⟩
  cases c? with
  | none => exact Or.inr ⟨Or.inl rfl, rfl⟩
  | some s =>
      by_cases hs : s.trim = ""
      · exact Or.inr ⟨Or.inr ⟨s, rfl, hs⟩, by simp [extractContent, hs]⟩
      · exact Or.inl ⟨s, rfl, hs, by simp [extractContent, hs]⟩

/-- Witness for C7: a successful call whose text trims to a nonempty string. -/
theorem success_content_trim_or_sentinel_witness :
    ∃ r, (generateBlog ⟨ApiResponse.success (some " x "), 7⟩ "t" "d" []).2 =
        [] ++ [r] ∧
      (generateBlog ⟨ApiResponse.success (some " x "), 7⟩ "t" "d" []).1.content =
        r.content ∧
      ((∃ s, (some " x " : Option String) = some s ∧ s.trim ≠ "" ∧
          r.content = s.trim) ∨
        (((some " x " : Option String) = none ∨
            ∃ s, (some " x " : Option String) = some s ∧ s.trim = "") ∧
          r.content = noContentSentinel)) :=
  success_content_trim_or_sentinel ⟨ApiResponse.success (some " x "), 7⟩
    "t" "d" [] (some " x ") rfl

/-- C8: `GET /blog` does not modify the store, and two consecutive reads
with no intervening write return identical data. -/
theorem get_blog_idempotent (store : List BlogRecord) :
    (getBlog ((getBlog store).2)).1 = (getBlog store).1 ∧
    (getBlog store).2 = store :=
  ⟨rfl, rfl⟩

/-- C9: the store is append-only: a `POST /generate` request leaves every
previously stored record present and unchanged (the new store is the old one
with new records appended after it), and `GET /blog` leaves the store
exactly as it was. -/
theorem store_append_only (env : Nat → CallEnv) (blogs? : Option JVal)
    (store : List BlogRecord) :
    (∃ tl, (postGenerate env blogs? store).store = store ++ tl) ∧
    (getBlog store).2 = store := by
  refine ⟨?_, rfl⟩
  match blogs? with
  | none => exact ⟨[], by simp [postGenerate, blogsRejected]⟩
  | some (JVal.jarr bs) =>
      rw [postGenerate_jarr]
      exact genLoop_store_extends env bs 0 store
  | some JVal.jnull => exact ⟨[], by simp [postGenerate, blogsRejected]⟩
  | some (JVal.jbool b) =>
      refine ⟨[], ?_⟩
      have hrej := blogsRejected_not_array (JVal.jbool b) rfl
      simp [postGenerate, hrej]
  | some (JVal.jnum n) =>
      refine ⟨[], ?_⟩
      have hrej := blogsRejected_not_array (JVal.jnum n) rfl
      simp [postGenerate, hrej]
  | some (JVal.jstr s) =>
      refine ⟨[], ?_⟩
      have hrej := blogsRejected_not_array (JVal.jstr s) rfl
      simp [postGenerate, hrej]

/-- C10: for every generation call whose external API invocation fails, the
document store is unchanged (no record written for that item) and the value
returned is exactly the plain object with fields `title`, `details` and the
placeholder `content` — its `createdAt` is absent (`none`). -/
theorem failure_no_write_no_timestamp (e : CallEnv) (t d : String)
    (store : List BlogRecord) (h : e.api = ApiResponse.failure) :
    (generateBlog e t d store).2 = store ∧
    (generateBlog e t d store).1 = ⟨t, d, failedContent, none⟩ := by
  rw [generateBlog_failure e t d store h]
  exact ⟨rfl, rfl⟩

/-- Witness for C10 at a concrete failing call over a nonempty store. -/
theorem failure_no_write_no_timestamp_witness :
    (generateBlog ⟨ApiResponse.failure, 9⟩ "t" "d"
        [⟨"p", "q", "c", 1⟩]).2 = [⟨"p", "q", "c", 1⟩] ∧
    (generateBlog ⟨ApiResponse.failure, 9⟩ "t" "d"
        [⟨"p", "q", "c", 1⟩]).1 = ⟨"t", "d", failedContent, none⟩ :=
  failure_no_write_no_timestamp ⟨ApiResponse.failure, 9⟩ "t" "d"
    [⟨"p", "q", "c", 1⟩] rfl
